import Mathlib

/-!
Shallow embedding of the article-ingestion service:
the article repository (content cache), the job repository (job ledger),
the Redis-backed task queue, the publisher service (submission coordinator)
and the consumer (worker retry/state engine), translated from
`src/database/repositories/article_repo.py`, `src/database/repositories/job_repo.py`,
`src/api/services/publisher.py`, `src/consumer/consumer.py` and the pydantic
models in `src/api/models/article.py` and `src/api/models/job.py`.

Timestamps are modelled as natural numbers threaded through as an explicit
`now` parameter; MongoDB ObjectIds are modelled as natural ids handed out
by the store.
-/

namespace NewsAgg

/-- Enum `ArticleStatus` from `src/api/models/article.py`. -/
inductive ArticleStatus
  | PENDING
  | SCRAPING
  | SCRAPED
  | FAILED
deriving DecidableEq, Repr

/-- Enum `JobStatus` from `src/api/models/job.py`. -/
inductive JobStatus
  | PENDING
  | IN_PROGRESS
  | COMPLETED
  | FAILED
deriving DecidableEq, Repr

/-- A stored article document (the `Article` model of `src/api/models/article.py`).
`priority` is a `String` because `ArticleBase.priority` is declared
`str = Field(..., min_length=3, max_length=6)`. -/
structure ArticleDoc where
  url : String
  source : String
  category : String
  priority : String
  title : Option String := none
  content : Option String := none
  status : ArticleStatus := .PENDING
  errorMessage : Option String := none
  scrapedAt : Option Nat := none
  createdAt : Nat := 0
  updatedAt : Nat := 0
  referenceCount : Nat := 0
deriving DecidableEq, Repr

/-- The `articles` collection: documents keyed by id, plus the next fresh id. -/
structure ArticlesDB where
  docs : List (Nat × ArticleDoc) := []
  nextId : Nat := 0
deriving DecidableEq, Repr

/-- Payload of `ArticleCreate` as built in `publish_all`. -/
structure ArticleCreateData where
  url : String
  source : String
  category : String
  priority : String
deriving DecidableEq, Repr

namespace ArticleRepository

/-- Python `ArticleRepository.get_by_url`: point lookup by url (`find_one({"url": url})`). -/
def getByUrl (db : ArticlesDB) (url : String) : Option (Nat × ArticleDoc) :=
  db.docs.find? (fun p => p.2.url = url)

/-- Python `ArticleRepository.get_by_id`. -/
def getById (db : ArticlesDB) (id : Nat) : Option ArticleDoc :=
  (db.docs.find? (fun p => p.1 = id)).map Prod.snd

/-- Error message raised by `ArticleRepository.create` on a duplicate url. -/
def dupErr (url : String) : String :=
  "Article with URL " ++ url ++ " already exists"

/-- Python `ArticleRepository.create`: inserts a fresh PENDING document;
the unique index on `url` makes the insert fail (`DuplicateKeyError`,
re-raised as `ValueError`) whenever the url is already present. -/
def create (db : ArticlesDB) (a : ArticleCreateData) (now : Nat) :
    Except String (Nat × ArticlesDB) :=
  if db.docs.any (fun p => p.2.url = a.url) then
    .error (dupErr a.url)
  else
    .ok (db.nextId,
      { docs := db.docs ++ [(db.nextId,
          { url := a.url, source := a.source, category := a.category,
            priority := a.priority, createdAt := now, updatedAt := now })],
        nextId := db.nextId + 1 })

/-- Python truthiness of an optional string (`if title:`):
`None` and the empty string are falsy. -/
def truthy : Option String → Bool
  | none => false
  | some s => s ≠ ""

/-- One document after `ArticleRepository.update_status`:
sets `status` and `updated_at`, stamps `scraped_at` when the new status is
SCRAPED, and sets `title` / `content` / `error_message` only when the
corresponding argument is truthy. -/
def applyStatusUpdate (d : ArticleDoc) (status : ArticleStatus)
    (title content errorMessage : Option String) (now : Nat) : ArticleDoc :=
  { d with
    status := status
    updatedAt := now
    scrapedAt := if status = .SCRAPED then some now else d.scrapedAt
    title := if truthy title then title else d.title
    content := if truthy content then content else d.content
    errorMessage := if truthy errorMessage then errorMessage else d.errorMessage }

/-- Python `ArticleRepository.update_status`: returns whether a document was
modified, plus the updated collection. -/
def updateStatus (db : ArticlesDB) (id : Nat) (status : ArticleStatus)
    (title content errorMessage : Option String) (now : Nat) :
    Bool × ArticlesDB :=
  if (db.docs.any (fun p => p.1 = id)) then
    (true,
      { db with docs := db.docs.map (fun p =>
          if p.1 = id then (p.1, applyStatusUpdate p.2 status title content errorMessage now)
          else p) })
  else
    (false, db)

/-- Python `ArticleRepository.increment_reference_count`: `$inc reference_count` by 1. -/
def incrementReferenceCount (db : ArticlesDB) (id : Nat) (now : Nat) :
    Bool × ArticlesDB :=
  if (db.docs.any (fun p => p.1 = id)) then
    (true,
      { db with docs := db.docs.map (fun p =>
          if p.1 = id then
            (p.1, { p.2 with referenceCount := p.2.referenceCount + 1, updatedAt := now })
          else p) })
  else
    (false, db)

end ArticleRepository

/-- A stored job document (the `Job` model of `src/api/models/job.py`). -/
structure JobDoc where
  status : JobStatus := .PENDING
  totalArticles : Nat
  newArticles : Nat := 0
  cachedArticles : Nat := 0
  completedCount : Nat := 0
  failedCount : Nat := 0
  articleIds : List Nat := []
  createdAt : Nat := 0
  updatedAt : Nat := 0
  completedAt : Option Nat := none
deriving DecidableEq, Repr

/-- The `jobs` collection. -/
structure JobsDB where
  docs : List (Nat × JobDoc) := []
  nextId : Nat := 0
deriving DecidableEq, Repr

namespace JobRepository

/-- Python `JobRepository.get_by_id`. -/
def getById (db : JobsDB) (id : Nat) : Option JobDoc :=
  (db.docs.find? (fun p => p.1 = id)).map Prod.snd

/-- Pydantic validation of `JobCreate` (`src/api/models/job.py`):
`total_articles: int = Field(..., ge=1)` — constructing the creation data
fails unless the total is at least 1. -/
def jobCreateValid (totalArticles : Nat) : Bool :=
  1 ≤ totalArticles

/-- Python `JobRepository.create`, guarded by the `JobCreate` validation performed
by the caller (`create_job` builds the `JobCreate` model first, which raises
a validation error for `total_articles = 0` before any insert happens). -/
def create (db : JobsDB) (totalArticles newArticles cachedArticles : Nat)
    (articleIds : List Nat) (now : Nat) : Except String (Nat × JobsDB) :=
  if jobCreateValid totalArticles then
    .ok (db.nextId,
      { docs := db.docs ++ [(db.nextId,
          { totalArticles := totalArticles, newArticles := newArticles,
            cachedArticles := cachedArticles, articleIds := articleIds,
            createdAt := now, updatedAt := now })],
        nextId := db.nextId + 1 })
  else
    .error "total_articles must be greater than or equal to 1"

/-- Python `JobRepository.update_status`: sets `status` and `updated_at`,
stamping `completed_at` when the new status is COMPLETED. -/
def updateStatus (db : JobsDB) (id : Nat) (status : JobStatus) (now : Nat) :
    Bool × JobsDB :=
  if (db.docs.any (fun p => p.1 = id)) then
    (true,
      { db with docs := db.docs.map (fun p =>
          if p.1 = id then
            (p.1, { p.2 with
              status := status
              updatedAt := now
              completedAt := if status = .COMPLETED then some now else p.2.completedAt })
          else p) })
  else
    (false, db)

/-- Python `JobRepository.increment_completed`: `$inc completed_count` by 1. -/
def incrementCompleted (db : JobsDB) (id : Nat) (now : Nat) : Bool × JobsDB :=
  if (db.docs.any (fun p => p.1 = id)) then
    (true,
      { db with docs := db.docs.map (fun p =>
          if p.1 = id then
            (p.1, { p.2 with completedCount := p.2.completedCount + 1, updatedAt := now })
          else p) })
  else
    (false, db)

/-- Python `JobRepository.increment_failed`: `$inc failed_count` by 1. -/
def incrementFailed (db : JobsDB) (id : Nat) (now : Nat) : Bool × JobsDB :=
  if (db.docs.any (fun p => p.1 = id)) then
    (true,
      { db with docs := db.docs.map (fun p =>
          if p.1 = id then
            (p.1, { p.2 with failedCount := p.2.failedCount + 1, updatedAt := now })
          else p) })
  else
    (false, db)

/-- Python `JobRepository.check_and_complete_job`: re-reads the job; when
`completed_count + failed_count >= total_articles` it transitions the job to
COMPLETED (via `update_status`) and returns its result, otherwise `False`. -/
def checkAndCompleteJob (db : JobsDB) (id : Nat) (now : Nat) : Bool × JobsDB :=
  match getById db id with
  | none => (false, db)
  | some job =>
      if job.totalArticles ≤ job.completedCount + job.failedCount then
        updateStatus db id .COMPLETED now
      else
        (false, db)

end JobRepository

/-- A task message as serialized onto the Redis sorted set by
`publish_article` (`src/api/services/publisher.py`):
`{job_id, article_id, url, source, category, priority, retry_count}`.
`priority` is the string taken from the submitted `ArticleBase`. -/
structure Task where
  jobId : Nat
  articleId : Nat
  url : String
  source : String
  category : String
  priority : String
  retryCount : Nat
deriving DecidableEq, Repr

/-- The Redis sorted set `articles`: entries are (message, score).
The score is whatever value `publish_article` passes to `zadd`. -/
abbrev Queue := List (Task × String)

/-- One entry of `articles_to_publish` built by `publish_all`. -/
structure TaskData where
  articleId : Nat
  url : String
  source : String
  category : String
  priority : String
deriving DecidableEq, Repr

/-- Python `publish_article`: builds the task message with `retry_count = 0` and
`zadd`s it under `priority_score = data.get("priority", 3)`, i.e. the
submitted priority value itself. -/
def publishArticle (q : Queue) (d : TaskData) (jobId : Nat) : Queue :=
  q ++ [(⟨jobId, d.articleId, d.url, d.source, d.category, d.priority, 0⟩, d.priority)]

/-- Model `JobSubmitResponse` from `src/api/models/job.py`. -/
structure JobSubmitResponse where
  jobId : Nat
  status : JobStatus
  totalArticles : Nat
  newArticles : Nat
  cachedArticles : Nat
  message : String := "Job submitted successfully"
deriving DecidableEq, Repr

/-- Accumulator of the per-article loop in `publish_all`:
`existing_articles_count`, `new_articles_count`, `linked_article_ids`,
`articles_to_publish`, plus the evolving articles collection. -/
structure PubState where
  adb : ArticlesDB
  existingCount : Nat := 0
  newCount : Nat := 0
  linked : List Nat := []
  toPublish : List TaskData := []
deriving DecidableEq, Repr

/-- One iteration of the per-article loop of `publish_all`.

The loop body performs two separate awaited store operations: the
`get_by_url` lookup, then (in the not-found branch) the `create` insert.
`interfere` is the environment's interleaved effect on the articles store
between the lookup and the subsequent store operation; the purely
sequential execution is `interfere = id`. -/
def processItem (interfere : ArticlesDB → ArticlesDB) (st : PubState)
    (item : ArticleCreateData) (now : Nat) : Except String PubState :=
  match ArticleRepository.getByUrl st.adb item.url with
  | some (id, doc) =>
      let adb := interfere st.adb
      if doc.status = .SCRAPED then
        -- cached: increment reference count, link the id, do not enqueue
        let adb' := (ArticleRepository.incrementReferenceCount adb id now).2
        .ok { st with
              adb := adb'
              existingCount := st.existingCount + 1
              linked := st.linked ++ [id] }
      else
        -- existing but not scraped: reset status to PENDING, link, enqueue
        let adb' := (ArticleRepository.updateStatus adb id .PENDING none none none now).2
        .ok { st with
              adb := adb'
              newCount := st.newCount + 1
              linked := st.linked ++ [id]
              toPublish := st.toPublish ++ [⟨id, item.url, item.source, item.category, item.priority⟩] }
  | none =>
      -- new: insert; a DuplicateKeyError surfaces as a ValueError
      let adb := interfere st.adb
      match ArticleRepository.create adb item now with
      | .error e => .error e
      | .ok (id, adb') =>
          .ok { st with
                adb := adb'
                newCount := st.newCount + 1
                linked := st.linked ++ [id]
                toPublish := st.toPublish ++ [⟨id, item.url, item.source, item.category, item.priority⟩] }

/-- Python `publish_all` (`src/api/services/publisher.py`), with an explicit
interference action at the loop body's await boundary:
classify every item, create the job (total = batch size), publish the
new/retry tasks carrying the job id, set the final job status
(COMPLETED when nothing needs scraping, else IN_PROGRESS), and return
the submission summary. -/
def publishAllWith (interfere : ArticlesDB → ArticlesDB) (adb : ArticlesDB)
    (jdb : JobsDB) (queue : Queue) (batch : List ArticleCreateData) (now : Nat) :
    Except String (ArticlesDB × JobsDB × Queue × JobSubmitResponse) := do
  let st ← batch.foldlM (fun st item => processItem interfere st item now)
    ({ adb := adb } : PubState)
  let created ←
    JobRepository.create jdb batch.length st.newCount st.existingCount st.linked now
  let jobId := created.1
  let jdb1 := created.2
  let queue' := st.toPublish.foldl (fun q d => publishArticle q d jobId) queue
  let status := if st.newCount = 0 then JobStatus.COMPLETED else JobStatus.IN_PROGRESS
  let jdb2 := (JobRepository.updateStatus jdb1 jobId status now).2
  .ok (st.adb, jdb2, queue',
    { jobId := jobId
      status := status
      totalArticles := batch.length
      newArticles := st.newCount
      cachedArticles := st.existingCount })

/-- Python `publish_all` as actually executed by a single coordinator with no
concurrent writer. -/
def publishAll (adb : ArticlesDB) (jdb : JobsDB) (queue : Queue)
    (batch : List ArticleCreateData) (now : Nat) :
    Except String (ArticlesDB × JobsDB × Queue × JobSubmitResponse) :=
  publishAllWith id adb jdb queue batch now

/-- A dead-letter record pushed to the `failed_articles` Redis list:
the final task data plus `failed_at`, `final_error` and `worker_id`. -/
structure DlqRecord where
  task : Task
  failedAt : Nat
  finalError : String
  workerId : String
deriving DecidableEq, Repr

/-- The shared state a worker acts on: the two Mongo collections, the
Redis sorted set, the dead-letter list, and the log of backoff sleeps the
worker has performed. -/
structure World where
  adb : ArticlesDB
  jdb : JobsDB
  queue : Queue
  dlq : List DlqRecord := []
  sleeps : List Nat := []
deriving DecidableEq, Repr

/-- Value of `self.max_retries`, set to 3 in `Consumer.__init__` (`src/consumer/consumer.py`). -/
def Consumer.maxRetries : Nat := 3

/-- Python `Consumer.handle_failure`: increments `retry_count`; at or above
`max_retries` it marks the article FAILED with the error, increments the
job's failed count, `lpush`es a dead-letter record and runs the completion
check; below `max_retries` it sleeps `2 ** retry_count` and re-`zadd`s the
task under the original priority score. -/
def handleFailure (mr : Nat) (wid : String) (task : Task) (score : String)
    (err : String) (w : World) (now : Nat) : World :=
  let rc := task.retryCount + 1
  let task' := { task with retryCount := rc }
  if mr ≤ rc then
    let adb' :=
      (ArticleRepository.updateStatus w.adb task.articleId .FAILED none none (some err) now).2
    let jdb' := (JobRepository.incrementFailed w.jdb task.jobId now).2
    let dlq' := (⟨task', now, err, wid⟩ : DlqRecord) :: w.dlq
    let jdb'' := (JobRepository.checkAndCompleteJob jdb' task.jobId now).2
    { w with adb := adb', jdb := jdb'', dlq := dlq' }
  else
    { w with sleeps := w.sleeps ++ [2 ^ rc], queue := w.queue ++ [(task', score)] }

/-- Outcome of `scrape_article_content`: either an exception, or the
optional title and content returned by the scraper. -/
inductive FetchOutcome
  | exn (msg : String)
  | ok (title content : Option String)
deriving DecidableEq, Repr

/-- Python `Consumer.process_article`: mark the article SCRAPING, invoke the
fetch; on a non-empty title and content store them under status SCRAPED,
increment the job's completed count and run the completion check;
any exception, empty extraction, or failed store write falls through to
`handle_failure`. -/
def processArticle (mr : Nat) (wid : String) (task : Task) (score : String)
    (fetch : FetchOutcome) (w : World) (now : Nat) : World :=
  let adb1 :=
    (ArticleRepository.updateStatus w.adb task.articleId .SCRAPING none none none now).2
  let w1 := { w with adb := adb1 }
  match fetch with
  | .exn msg => handleFailure mr wid task score msg w1 now
  | .ok title content =>
      if ArticleRepository.truthy title && ArticleRepository.truthy content then
        let res :=
          ArticleRepository.updateStatus w1.adb task.articleId .SCRAPED title content none now
        let success := res.1
        let adb2 := res.2
        if success then
          let jdb1 := (JobRepository.incrementCompleted w1.jdb task.jobId now).2
          let jdb2 := (JobRepository.checkAndCompleteJob jdb1 task.jobId now).2
          { w1 with adb := adb2, jdb := jdb2 }
        else
          handleFailure mr wid task score "Failed to update article in database"
            { w1 with adb := adb2 } now
      else
        handleFailure mr wid task score "Failed to extract title or content" w1 now

/-- Runs `n` consecutive deliveries of the same logical task to a worker whose
fetch fails every time: each delivery is popped off the queue
(`bzpopmin` removes the entry), processed, and — below the retry limit —
re-enqueued with the retry count incremented, which is exactly the task
the next delivery carries. -/
def failDeliveries (mr : Nat) (wid : String) (score : String) (err : String)
    (now : Nat) : Nat → Task → World → World
  | 0, _, w => w
  | n + 1, task, w =>
      let w1 := { w with queue := w.queue.erase (task, score) }
      let w2 := processArticle mr wid task score (.exn err) w1 now
      failDeliveries mr wid score err now n
        { task with retryCount := task.retryCount + 1 } w2

/-- Reference count currently stored for a url (0 when the url is absent),
read through the same `get_by_url` lookup the coordinator uses. -/
def referenceCountAt (db : ArticlesDB) (u : String) : Nat :=
  match ArticleRepository.getByUrl db u with
  | some p => p.2.referenceCount
  | none => 0

/-- Validation bound of `ArticleBase.priority`
(`str = Field(..., min_length=3, max_length=6)` in `src/api/models/article.py`):
the submitted priority is a 3-to-6-character string such as "high". -/
def articleBasePriorityValid (s : String) : Bool :=
  3 ≤ s.length && s.length ≤ 6

/-- Validation bound declared for the queue-task schema `ArticleTask.priority`
(`int = Field(default=1, ge=1, le=10)` in `src/api/models/article.py`):
the very same task payload is documented with an integer priority. -/
def articleTaskPriorityValid (n : Int) : Bool :=
  1 ≤ n && n ≤ 10

/-! ### Helper lemmas about the keyed-document stores -/

/-- Updating the document at one key commutes with lookup by key. -/
theorem key_map_find? {α : Type} (l : List (Nat × α)) (f : α → α) (id i : Nat) :
    (l.map (fun p => if p.1 = id then (p.1, f p.2) else p)).find? (fun p => p.1 = i)
      = (l.find? (fun p => p.1 = i)).map (fun p => if p.1 = id then (p.1, f p.2) else p) := by
  rw [List.find?_map]
  have hp : ((fun p : Nat × α => decide (p.1 = i)) ∘
        fun p => if p.1 = id then (p.1, f p.2) else p)
      = fun p : Nat × α => decide (p.1 = i) := by
    funext p
    show decide ((if p.1 = id then (p.1, f p.2) else p).1 = i) = decide (p.1 = i)
    split <;> rfl
  rw [hp]

/-- Lookup at the updated key sees the updated document. -/
theorem getById_key_map_self {α : Type} (l : List (Nat × α)) (f : α → α) (id : Nat) :
    ((l.map (fun p => if p.1 = id then (p.1, f p.2) else p)).find?
        (fun p => p.1 = id)).map Prod.snd
      = ((l.find? (fun p => p.1 = id)).map Prod.snd).map f := by
  rw [key_map_find?]
  cases h : l.find? (fun p => p.1 = id) with
  | none => rfl
  | some a =>
      have ha : a.1 = id := by simpa using List.find?_some h
      simp [ha]

/-- Lookup at any other key is unchanged by the update. -/
theorem getById_key_map_other {α : Type} (l : List (Nat × α)) (f : α → α)
    (id i : Nat) (h : i ≠ id) :
    ((l.map (fun p => if p.1 = id then (p.1, f p.2) else p)).find?
        (fun p => p.1 = i)).map Prod.snd
      = (l.find? (fun p => p.1 = i)).map Prod.snd := by
  rw [key_map_find?]
  cases h' : l.find? (fun p => p.1 = i) with
  | none => rfl
  | some a =>
      have ha : a.1 = i := by simpa using List.find?_some h'
      simp [ha, h]

/-- A keyed update that preserves urls commutes with lookup by url. -/
theorem url_map_find? (l : List (Nat × ArticleDoc)) (f : ArticleDoc → ArticleDoc)
    (hf : ∀ d, (f d).url = d.url) (id : Nat) (u : String) :
    (l.map (fun p => if p.1 = id then (p.1, f p.2) else p)).find? (fun p => p.2.url = u)
      = (l.find? (fun p => p.2.url = u)).map (fun p => if p.1 = id then (p.1, f p.2) else p) := by
  rw [List.find?_map]
  have hp : ((fun p : Nat × ArticleDoc => decide (p.2.url = u)) ∘
        fun p => if p.1 = id then (p.1, f p.2) else p)
      = fun p : Nat × ArticleDoc => decide (p.2.url = u) := by
    funext p
    show decide ((if p.1 = id then (p.1, f p.2) else p).2.url = u) = decide (p.2.url = u)
    split <;> simp [hf]
  rw [hp]

/-- Presence by key, as the `any` test used by the update guards. -/
theorem any_key_of_getById {α : Type} (l : List (Nat × α)) (id : Nat) (d : α)
    (h : (l.find? (fun p => p.1 = id)).map Prod.snd = some d) :
    l.any (fun p => p.1 = id) = true := by
  cases h' : l.find? (fun p => p.1 = id) with
  | none => rw [h'] at h; simp at h
  | some a =>
      have := List.find?_some h'
      have hmem := List.mem_of_find?_eq_some h'
      simp only [List.any_eq_true]
      exact ⟨a, hmem, this⟩

/-- Absence by key: the `any` guard fails. -/
theorem any_key_of_getById_none {α : Type} (l : List (Nat × α)) (id : Nat)
    (h : (l.find? (fun p => p.1 = id)).map Prod.snd = none) :
    l.any (fun p => p.1 = id) = false := by
  cases h' : l.find? (fun p => p.1 = id) with
  | none =>
      rw [List.find?_eq_none] at h'
      have hna : ¬ l.any (fun p => decide (p.1 = id)) = true := by
        simp only [List.any_eq_true]
        rintro ⟨x, hx, hpx⟩
        exact h' x hx hpx
      exact Bool.eq_false_iff.mpr hna
  | some a => rw [h'] at h; simp at h

/-- A url-lookup hit witnesses key presence. -/
theorem any_key_of_getByUrl (db : ArticlesDB) (u : String) (id : Nat) (d : ArticleDoc)
    (h : ArticleRepository.getByUrl db u = some (id, d)) :
    db.docs.any (fun p => p.1 = id) = true := by
  have h' : db.docs.find? (fun p => p.2.url = u) = some (id, d) := h
  have hmem := List.mem_of_find?_eq_some h'
  simp only [List.any_eq_true]
  exact ⟨(id, d), hmem, by simp⟩

/-- A url-lookup miss means the uniqueness guard of `create` passes. -/
theorem any_url_of_getByUrl_none (db : ArticlesDB) (u : String)
    (h : ArticleRepository.getByUrl db u = none) :
    db.docs.any (fun p => p.2.url = u) = false := by
  have h' : db.docs.find? (fun p => p.2.url = u) = none := h
  rw [List.find?_eq_none] at h'
  have hna : ¬ db.docs.any (fun p => decide (p.2.url = u)) = true := by
    simp only [List.any_eq_true]
    rintro ⟨x, hx, hpx⟩
    exact h' x hx hpx
  exact Bool.eq_false_iff.mpr hna

namespace ArticleRepository

/-- Function `applyStatusUpdate` never touches the url. -/
theorem applyStatusUpdate_url (d : ArticleDoc) (s : ArticleStatus)
    (t c e : Option String) (now : Nat) :
    (applyStatusUpdate d s t c e now).url = d.url := rfl

/-- Running `update_status` on a present key: modifies and reports `True`. -/
theorem updateStatus_eq (db : ArticlesDB) (id : Nat) (s : ArticleStatus)
    (t c e : Option String) (now : Nat)
    (hany : db.docs.any (fun p => p.1 = id) = true) :
    updateStatus db id s t c e now
      = (true, { db with docs := db.docs.map (fun p =>
          if p.1 = id then (p.1, applyStatusUpdate p.2 s t c e now) else p) }) := by
  unfold updateStatus
  rw [hany]
  simp

/-- Running `update_status` on an absent key: no-op reporting `False`. -/
theorem updateStatus_eq_none (db : ArticlesDB) (id : Nat) (s : ArticleStatus)
    (t c e : Option String) (now : Nat)
    (h : getById db id = none) :
    updateStatus db id s t c e now = (false, db) := by
  have h' : (db.docs.find? (fun p => p.1 = id)).map Prod.snd = none := h
  unfold updateStatus
  rw [any_key_of_getById_none db.docs id h']
  simp

/-- Lookup of the updated article after `update_status`. -/
theorem getById_updateStatus_self (db : ArticlesDB) (id : Nat) (d : ArticleDoc)
    (s : ArticleStatus) (t c e : Option String) (now : Nat)
    (h : getById db id = some d) :
    getById (updateStatus db id s t c e now).2 id
      = some (applyStatusUpdate d s t c e now) := by
  have h' : (db.docs.find? (fun p => p.1 = id)).map Prod.snd = some d := h
  rw [updateStatus_eq db id s t c e now (any_key_of_getById db.docs id d h')]
  have hm := getById_key_map_self db.docs
    (fun x => applyStatusUpdate x s t c e now) id
  exact hm.trans (by rw [h']; simp)

/-- Running `update_status` does not disturb other ids. -/
theorem getById_updateStatus_ne (db : ArticlesDB) (id i : Nat) (s : ArticleStatus)
    (t c e : Option String) (now : Nat) (hne : i ≠ id) :
    getById (updateStatus db id s t c e now).2 i = getById db i := by
  unfold updateStatus
  cases hany : db.docs.any (fun p => p.1 = id) with
  | false => simp
  | true =>
      simp only [if_pos rfl, cond_true]
      have hm := getById_key_map_other db.docs
        (fun x => applyStatusUpdate x s t c e now) id i hne
      exact hm

/-- Url lookup after `update_status` sees the keyed update. -/
theorem getByUrl_updateStatus (db : ArticlesDB) (id : Nat) (s : ArticleStatus)
    (t c e : Option String) (now : Nat) (u : String)
    (hany : db.docs.any (fun p => p.1 = id) = true) :
    getByUrl (updateStatus db id s t c e now).2 u
      = (getByUrl db u).map (fun p =>
          if p.1 = id then (p.1, applyStatusUpdate p.2 s t c e now) else p) := by
  rw [updateStatus_eq db id s t c e now hany]
  exact url_map_find? db.docs (fun x => applyStatusUpdate x s t c e now)
    (fun d => rfl) id u

/-- Running `increment_reference_count` on a present key. -/
theorem incRef_eq (db : ArticlesDB) (id : Nat) (now : Nat)
    (hany : db.docs.any (fun p => p.1 = id) = true) :
    incrementReferenceCount db id now
      = (true, { db with docs := db.docs.map (fun p =>
          if p.1 = id then
            (p.1, { p.2 with referenceCount := p.2.referenceCount + 1, updatedAt := now })
          else p) }) := by
  unfold incrementReferenceCount
  rw [hany]
  simp

/-- Url lookup after `increment_reference_count` sees the keyed update. -/
theorem getByUrl_incRef (db : ArticlesDB) (id : Nat) (now : Nat) (u : String)
    (hany : db.docs.any (fun p => p.1 = id) = true) :
    getByUrl (incrementReferenceCount db id now).2 u
      = (getByUrl db u).map (fun p =>
          if p.1 = id then
            (p.1, { p.2 with referenceCount := p.2.referenceCount + 1, updatedAt := now })
          else p) := by
  rw [incRef_eq db id now hany]
  exact url_map_find? db.docs
    (fun x => { x with referenceCount := x.referenceCount + 1, updatedAt := now })
    (fun d => rfl) id u

/-- Running `create` when the url is absent: inserts a fresh PENDING document. -/
theorem create_ok (db : ArticlesDB) (a : ArticleCreateData) (now : Nat)
    (h : getByUrl db a.url = none) :
    create db a now
      = .ok (db.nextId,
          { docs := db.docs ++ [(db.nextId,
              { url := a.url, source := a.source, category := a.category,
                priority := a.priority, createdAt := now, updatedAt := now })],
            nextId := db.nextId + 1 }) := by
  unfold create
  rw [any_url_of_getByUrl_none db a.url h]
  simp

end ArticleRepository

namespace JobRepository

/-- Running `update_status` on a present job id. -/
theorem jobUpdateStatus_eq (db : JobsDB) (id : Nat) (s : JobStatus) (now : Nat)
    (hany : db.docs.any (fun p => p.1 = id) = true) :
    updateStatus db id s now
      = (true, { db with docs := db.docs.map (fun p =>
          if p.1 = id then
            (p.1, { p.2 with
              status := s
              updatedAt := now
              completedAt := if s = .COMPLETED then some now else p.2.completedAt })
          else p) }) := by
  unfold updateStatus
  rw [hany]
  simp

/-- Lookup of the updated job after `update_status`. -/
theorem getById_jobUpdateStatus_self (db : JobsDB) (id : Nat) (jb : JobDoc)
    (s : JobStatus) (now : Nat) (h : getById db id = some jb) :
    getById (updateStatus db id s now).2 id
      = some { jb with
          status := s
          updatedAt := now
          completedAt := if s = .COMPLETED then some now else jb.completedAt } := by
  have h' : (db.docs.find? (fun p => p.1 = id)).map Prod.snd = some jb := h
  rw [jobUpdateStatus_eq db id s now (any_key_of_getById db.docs id jb h')]
  have hm := getById_key_map_self db.docs
    (fun x => { x with
      status := s
      updatedAt := now
      completedAt := if s = .COMPLETED then some now else x.completedAt }) id
  exact hm.trans (by rw [h']; simp)

/-- Running `increment_failed` on a present job id. -/
theorem incrementFailed_eq (db : JobsDB) (id : Nat) (now : Nat)
    (hany : db.docs.any (fun p => p.1 = id) = true) :
    incrementFailed db id now
      = (true, { db with docs := db.docs.map (fun p =>
          if p.1 = id then
            (p.1, { p.2 with failedCount := p.2.failedCount + 1, updatedAt := now })
          else p) }) := by
  unfold incrementFailed
  rw [hany]
  simp

/-- Lookup of the updated job after `increment_failed`. -/
theorem getById_incrementFailed_self (db : JobsDB) (id : Nat) (jb : JobDoc)
    (now : Nat) (h : getById db id = some jb) :
    getById (incrementFailed db id now).2 id
      = some { jb with failedCount := jb.failedCount + 1, updatedAt := now } := by
  have h' : (db.docs.find? (fun p => p.1 = id)).map Prod.snd = some jb := h
  rw [incrementFailed_eq db id now (any_key_of_getById db.docs id jb h')]
  have hm := getById_key_map_self db.docs
    (fun x => { x with failedCount := x.failedCount + 1, updatedAt := now }) id
  exact hm.trans (by rw [h']; simp)

/-- Running `increment_completed` on a present job id. -/
theorem incrementCompleted_eq (db : JobsDB) (id : Nat) (now : Nat)
    (hany : db.docs.any (fun p => p.1 = id) = true) :
    incrementCompleted db id now
      = (true, { db with docs := db.docs.map (fun p =>
          if p.1 = id then
            (p.1, { p.2 with completedCount := p.2.completedCount + 1, updatedAt := now })
          else p) }) := by
  unfold incrementCompleted
  rw [hany]
  simp

/-- Lookup of the updated job after `increment_completed`. -/
theorem getById_incrementCompleted_self (db : JobsDB) (id : Nat) (jb : JobDoc)
    (now : Nat) (h : getById db id = some jb) :
    getById (incrementCompleted db id now).2 id
      = some { jb with completedCount := jb.completedCount + 1, updatedAt := now } := by
  have h' : (db.docs.find? (fun p => p.1 = id)).map Prod.snd = some jb := h
  rw [incrementCompleted_eq db id now (any_key_of_getById db.docs id jb h')]
  have hm := getById_key_map_self db.docs
    (fun x => { x with completedCount := x.completedCount + 1, updatedAt := now }) id
  exact hm.trans (by rw [h']; simp)

/-- The effect of `check_and_complete_job` on the stored job, given the
job's current counters. -/
theorem getById_checkAndCompleteJob (db : JobsDB) (id : Nat) (jb : JobDoc)
    (now : Nat) (h : getById db id = some jb) :
    getById (checkAndCompleteJob db id now).2 id
      = some (if jb.totalArticles ≤ jb.completedCount + jb.failedCount then
          { jb with status := .COMPLETED, updatedAt := now, completedAt := some now }
        else jb) := by
  unfold checkAndCompleteJob
  rw [h]
  dsimp only
  by_cases hc : jb.totalArticles ≤ jb.completedCount + jb.failedCount
  · rw [if_pos hc, if_pos hc]
    simpa using getById_jobUpdateStatus_self db id jb .COMPLETED now h
  · rw [if_neg hc, if_neg hc]
    exact h

end JobRepository

end NewsAgg

namespace NewsAgg

/-! ### Claim theorems -/

/-- C7: `check_and_complete_job` re-reads the job's counters; for an
existing job with `completed_count + failed_count ≥ total_articles` it
transitions the job to COMPLETED (stamping `completed_at` at that
transition) and returns `True`; when the sum is below the total, or the
job id does not resolve to a job, it changes nothing and returns `False`. -/
theorem C7_try_complete (jdb : JobsDB) (id : Nat) (now : Nat) :
    (JobRepository.getById jdb id = none →
      JobRepository.checkAndCompleteJob jdb id now = (false, jdb))
    ∧ (∀ jb : JobDoc, JobRepository.getById jdb id = some jb →
        (jb.totalArticles ≤ jb.completedCount + jb.failedCount →
          (JobRepository.checkAndCompleteJob jdb id now).1 = true
          ∧ JobRepository.getById (JobRepository.checkAndCompleteJob jdb id now).2 id
              = some { jb with
                  status := .COMPLETED
                  updatedAt := now
                  completedAt := some now })
        ∧ (jb.completedCount + jb.failedCount < jb.totalArticles →
          JobRepository.checkAndCompleteJob jdb id now = (false, jdb))) := by
  constructor
  · intro h
    unfold JobRepository.checkAndCompleteJob
    rw [h]
  · intro jb h
    constructor
    · intro hc
      constructor
      · unfold JobRepository.checkAndCompleteJob
        rw [h]
        dsimp only
        rw [if_pos hc]
        rw [JobRepository.jobUpdateStatus_eq jdb id .COMPLETED now
          (any_key_of_getById jdb.docs id jb h)]
      · have hfin := JobRepository.getById_checkAndCompleteJob jdb id jb now h
        rw [if_pos hc] at hfin
        exact hfin
    · intro hc
      unfold JobRepository.checkAndCompleteJob
      rw [h]
      dsimp only
      rw [if_neg (Nat.not_le.mpr hc)]

/-- Witness for C7 at a concrete store: a job with total 1, completed 1
is completed by `check_and_complete_job`, which returns `True`. -/
theorem C7_try_complete_witness :
    (JobRepository.checkAndCompleteJob
        ⟨[(0, { totalArticles := 1, completedCount := 1 })], 1⟩ 0 5).1 = true := by
  have h := ((C7_try_complete
      ⟨[(0, { totalArticles := 1, completedCount := 1 })], 1⟩ 0 5).2
      { totalArticles := 1, completedCount := 1 } rfl).1 (by decide)
  exact h.1

/-- C4: a failed attempt whose incremented retry count is strictly below
`max_retries` sleeps `2 ^ retry_count` time units, then re-enqueues the
same task at its original priority score with the retry count incremented
by exactly 1; it is not dead-lettered and no job counter (indeed no store
but the sleep log and the queue) is changed. -/
theorem C4_retry_backoff (mr : Nat) (wid : String) (task : Task) (score : String)
    (err : String) (w : World) (now : Nat)
    (h : task.retryCount + 1 < mr) :
    handleFailure mr wid task score err w now
      = { w with
          sleeps := w.sleeps ++ [2 ^ (task.retryCount + 1)]
          queue := w.queue ++ [({ task with retryCount := task.retryCount + 1 }, score)] } := by
  unfold handleFailure
  dsimp only
  rw [if_neg (Nat.not_le.mpr h)]

/-- Witness for C4: a first failure (retry count 0 → 1) under the
consumer's `max_retries = 3` sleeps 2 time units and re-enqueues. -/
theorem C4_retry_backoff_witness :
    (0 : Nat) + 1 < Consumer.maxRetries
    ∧ handleFailure Consumer.maxRetries "w1"
        ⟨0, 0, "u", "s", "c", "high", 0⟩ "high" "boom"
        ⟨⟨[], 0⟩, ⟨[], 0⟩, [], [], []⟩ 7
      = ⟨⟨[], 0⟩, ⟨[], 0⟩, [(⟨0, 0, "u", "s", "c", "high", 1⟩, "high")], [], [2]⟩ :=
  ⟨by decide,
    C4_retry_backoff Consumer.maxRetries "w1" ⟨0, 0, "u", "s", "c", "high", 0⟩
      "high" "boom" ⟨⟨[], 0⟩, ⟨[], 0⟩, [], [], []⟩ 7 (by decide)⟩

/-- C10: submitting an empty batch never creates a job and returns no
success summary: the `JobCreate` validation requires `total_articles ≥ 1`,
so the job-creation data for total 0 fails validation and `publish_all`
errors out before any job is written or any task enqueued. -/
theorem C10_empty_batch (adb : ArticlesDB) (jdb : JobsDB) (q : Queue) (now : Nat) :
    publishAll adb jdb q [] now
      = .error "total_articles must be greater than or equal to 1"
    ∧ JobRepository.jobCreateValid 0 = false := by
  constructor
  · rfl
  · rfl

end NewsAgg

namespace NewsAgg

/-- C2 (code evidence): the score under which `publish_all` enqueues a
task is the priority value carried by the submitted article reference —
which `ArticleBase` constrains to be a 3-to-6-character string such as
"high", not a number. For a fresh submission of one article with priority
"high", the queue receives exactly one entry whose `zadd` score is the
string "high" (not a decimal numeral — Redis `zadd` requires a float
score), although the queue-task schema `ArticleTask` declares an integer
priority. -/
theorem C2_priority_score_is_string :
    (publishAll ⟨[], 0⟩ ⟨[], 0⟩ []
        [⟨"https://example.com/a", "TechNews", "AI", "high"⟩] 0).map
        (fun r => r.2.2.1)
      = .ok [(⟨0, 0, "https://example.com/a", "TechNews", "AI", "high", 0⟩, "high")]
    ∧ articleBasePriorityValid "high" = true
    ∧ "high".data.all Char.isDigit = false := by
  refine ⟨rfl, by decide, by decide⟩

/-- C1 counterexample: when a concurrent writer inserts the url between
the coordinator's lookup and its create, the uniqueness-constraint error
(surfaced as the repository's ValueError) propagates out of the
submission operation instead of being recovered by a re-read. -/
theorem C1_dup_error_propagates_counterexample :
    publishAllWith
        (fun db => (⟨db.docs ++
            [(100, { url := "https://example.com/a", source := "s2",
                     category := "c2", priority := "low" })], 101⟩ : ArticlesDB))
        ⟨[], 0⟩ ⟨[], 0⟩ [] [⟨"https://example.com/a", "TechNews", "AI", "high"⟩] 0
      = .error (ArticleRepository.dupErr "https://example.com/a") := by
  rfl

end NewsAgg

namespace NewsAgg

/-- C1 (amended): when the uniqueness constraint rejects the create
because the url, absent at lookup time, is present by create time, the
Submission Coordinator does not retry the lookup: the repository's
ValueError is propagated to the caller of the submission operation and
the batch submission fails. -/
theorem C1_dup_error_propagates (adb : ArticlesDB) (jdb : JobsDB) (q : Queue)
    (interfere : ArticlesDB → ArticlesDB) (item : ArticleCreateData) (now : Nat)
    (h1 : ArticleRepository.getByUrl adb item.url = none)
    (h2 : (interfere adb).docs.any (fun p => p.2.url = item.url) = true) :
    publishAllWith interfere adb jdb q [item] now
      = .error (ArticleRepository.dupErr item.url) := by
  have hc : ArticleRepository.create (interfere adb) item now
      = .error (ArticleRepository.dupErr item.url) := by
    unfold ArticleRepository.create
    rw [h2]
    rfl
  have hp : processItem interfere ({ adb := adb } : PubState) item now
      = .error (ArticleRepository.dupErr item.url) := by
    unfold processItem
    dsimp only
    rw [h1]
    dsimp only
    rw [hc]
  unfold publishAllWith
  rw [List.foldlM_cons, hp]
  rfl

/-- Witness for C1 (amended): a concrete raced create on the url
`https://example.com/w` surfaces the duplicate-url ValueError. -/
theorem C1_dup_error_propagates_witness :
    ArticleRepository.getByUrl ⟨[], 0⟩ "https://example.com/w" = none
    ∧ ((fun db : ArticlesDB => (⟨db.docs ++
          [(7, { url := "https://example.com/w", source := "x",
                 category := "y", priority := "med" })], 8⟩ : ArticlesDB))
        ⟨[], 0⟩).docs.any
          (fun p => p.2.url = ("https://example.com/w" : String)) = true
    ∧ publishAllWith
        (fun db : ArticlesDB => (⟨db.docs ++
          [(7, { url := "https://example.com/w", source := "x",
                 category := "y", priority := "med" })], 8⟩ : ArticlesDB))
        ⟨[], 0⟩ ⟨[], 0⟩ [] [⟨"https://example.com/w", "TechNews", "AI", "high"⟩] 3
      = .error (ArticleRepository.dupErr "https://example.com/w") :=
  ⟨rfl, by decide,
    C1_dup_error_propagates ⟨[], 0⟩ ⟨[], 0⟩ []
      (fun db : ArticlesDB => (⟨db.docs ++
          [(7, { url := "https://example.com/w", source := "x",
                 category := "y", priority := "med" })], 8⟩ : ArticlesDB))
      ⟨"https://example.com/w", "TechNews", "AI", "high"⟩ 3 rfl (by decide)⟩

end NewsAgg

namespace NewsAgg

/-- Lookup of a freshly appended job document, when every existing key is
smaller than the fresh key (the id-allocation invariant of the store). -/
theorem JobRepository.getById_append_fresh (docs : List (Nat × JobDoc)) (k : Nat)
    (jb : JobDoc) (n' : Nat) (hwf : ∀ p ∈ docs, p.1 < k) :
    JobRepository.getById ⟨docs ++ [(k, jb)], n'⟩ k = some jb := by
  show ((docs ++ [(k, jb)]).find? (fun p => p.1 = k)).map Prod.snd = some jb
  rw [List.find?_append]
  have h1 : docs.find? (fun p => p.1 = k) = none := by
    rw [List.find?_eq_none]
    intro x hx
    simpa using Nat.ne_of_lt (hwf x hx)
  rw [h1]
  simp

/-- C3 counterexample: a url whose cached record is in status SCRAPING
(the in-flight "FETCHING" state) is reset to PENDING when resubmitted —
the reset is not restricted to FAILED records. -/
theorem C3_scraping_reset_counterexample :
    (publishAll
        ⟨[(5, { url := "https://example.com/a", source := "s", category := "c",
                priority := "high", status := .SCRAPING })], 6⟩
        ⟨[], 0⟩ [] [⟨"https://example.com/a", "TechNews", "AI", "high"⟩] 0).map
        (fun r => (ArticleRepository.getById r.1 5).map ArticleDoc.status)
      = .ok (some .PENDING) := by
  rfl

end NewsAgg

namespace NewsAgg

/-- C3 (amended): for a resubmitted url found with any status other than
SCRAPED (i.e. FAILED, PENDING or SCRAPING), the coordinator records its id
as a job member, enqueues exactly one task for it, and resets its status
to PENDING — the reset is applied to every non-SCRAPED status, not only
to FAILED. -/
theorem C3_nonscraped_reset (adb : ArticlesDB) (jdb : JobsDB) (q : Queue)
    (item : ArticleCreateData) (now : Nat) (aid : Nat) (doc : ArticleDoc)
    (h : ArticleRepository.getByUrl adb item.url = some (aid, doc))
    (hs : ¬ doc.status = .SCRAPED)
    (hwf : ∀ p ∈ jdb.docs, p.1 < jdb.nextId) :
    ∃ adb' jdb' resp,
      publishAll adb jdb q [item] now
        = .ok (adb', jdb',
            q ++ [(⟨resp.jobId, aid, item.url, item.source, item.category,
                item.priority, 0⟩, item.priority)],
            resp)
      ∧ ArticleRepository.getByUrl adb' item.url
          = some (aid, { doc with status := .PENDING, updatedAt := now })
      ∧ (∃ job, JobRepository.getById jdb' resp.jobId = some job
          ∧ job.articleIds = [aid] ∧ job.status = .IN_PROGRESS) := by
  have hany : adb.docs.any (fun p => p.1 = aid) = true := by
    have hmem := List.mem_of_find?_eq_some (show adb.docs.find?
      (fun p => p.2.url = item.url) = some (aid, doc) from h)
    simp only [List.any_eq_true]
    exact ⟨(aid, doc), hmem, by simp⟩
  have hp : processItem id ({ adb := adb } : PubState) item now
      = .ok ⟨(ArticleRepository.updateStatus adb aid .PENDING none none none now).2,
          0, 1, [aid], [⟨aid, item.url, item.source, item.category, item.priority⟩]⟩ := by
    unfold processItem
    dsimp only
    rw [h]
    dsimp only
    rw [if_neg hs]
    rfl
  refine ⟨(ArticleRepository.updateStatus adb aid .PENDING none none none now).2,
    (JobRepository.updateStatus
      ⟨jdb.docs ++ [(jdb.nextId,
        { totalArticles := 1, newArticles := 1, cachedArticles := 0,
          articleIds := [aid], createdAt := now, updatedAt := now })], jdb.nextId + 1⟩
      jdb.nextId .IN_PROGRESS now).2,
    ⟨jdb.nextId, .IN_PROGRESS, 1, 1, 0, "Job submitted successfully"⟩, ?_, ?_, ?_⟩
  · unfold publishAll publishAllWith
    rw [List.foldlM_cons, hp]
    rfl
  · rw [ArticleRepository.getByUrl_updateStatus adb aid .PENDING none none none now
      item.url hany, h]
    show some (if aid = aid then _ else _) = _
    rw [if_pos rfl]
    rfl
  · refine ⟨_, JobRepository.getById_jobUpdateStatus_self _ jdb.nextId
      { totalArticles := 1, newArticles := 1, cachedArticles := 0,
        articleIds := [aid], createdAt := now, updatedAt := now }
      .IN_PROGRESS now
      (JobRepository.getById_append_fresh jdb.docs jdb.nextId _ (jdb.nextId + 1) hwf),
      rfl, rfl⟩

end NewsAgg

namespace NewsAgg

/-- Witness for C3 (amended): a concrete FAILED record is reset to
PENDING, linked, and re-enqueued by a resubmission. -/
theorem C3_nonscraped_reset_witness :
    ∃ adb' jdb' resp,
      publishAll
        ⟨[(5, { url := "https://example.com/b", source := "s", category := "c",
                priority := "high", status := .FAILED })], 6⟩
        ⟨[], 0⟩ [] [⟨"https://example.com/b", "TechNews", "AI", "low"⟩] 2
        = .ok (adb', jdb',
            [] ++ [(⟨resp.jobId, 5, "https://example.com/b", "TechNews", "AI",
                "low", 0⟩, "low")],
            resp)
      ∧ ArticleRepository.getByUrl adb' "https://example.com/b"
          = some (5, { url := "https://example.com/b", source := "s", category := "c",
                       priority := "high", status := .PENDING, updatedAt := 2 })
      ∧ (∃ job, JobRepository.getById jdb' resp.jobId = some job
          ∧ job.articleIds = [5] ∧ job.status = .IN_PROGRESS) :=
  C3_nonscraped_reset
    ⟨[(5, { url := "https://example.com/b", source := "s", category := "c",
            priority := "high", status := .FAILED })], 6⟩
    ⟨[], 0⟩ [] ⟨"https://example.com/b", "TechNews", "AI", "low"⟩ 2 5
    { url := "https://example.com/b", source := "s", category := "c",
      priority := "high", status := .FAILED }
    (by rfl) (by decide) (by simp)

/-- C6: when the fetch returns a non-empty title and body, the worker
stores them on the content record under status SCRAPED (stamping
`scraped_at`), increments the job's completed count and then runs the
completion check; the dead-letter list, the queue and the sleep log are
untouched. A fetch result with an empty (or missing) title or body is
instead handed to `handle_failure`, entering the retry logic. -/
theorem C6_success_path (mr : Nat) (wid : String) (task : Task) (score : String)
    (t c : String) (w : World) (now : Nat) (d : ArticleDoc) (jb : JobDoc)
    (ht : t ≠ "") (hc : c ≠ "")
    (ha : ArticleRepository.getById w.adb task.articleId = some d)
    (hj : JobRepository.getById w.jdb task.jobId = some jb) :
    (let wf := processArticle mr wid task score (.ok (some t) (some c)) w now
     ArticleRepository.getById wf.adb task.articleId
        = some { d with
            status := .SCRAPED
            title := some t
            content := some c
            scrapedAt := some now
            updatedAt := now }
     ∧ JobRepository.getById wf.jdb task.jobId
        = some (if jb.totalArticles ≤ jb.completedCount + 1 + jb.failedCount then
            { jb with
              completedCount := jb.completedCount + 1
              status := .COMPLETED
              updatedAt := now
              completedAt := some now }
          else { jb with completedCount := jb.completedCount + 1, updatedAt := now })
     ∧ wf.dlq = w.dlq ∧ wf.queue = w.queue ∧ wf.sleeps = w.sleeps)
    ∧ (∀ title content : Option String,
        (ArticleRepository.truthy title && ArticleRepository.truthy content) = false →
        processArticle mr wid task score (.ok title content) w now
          = handleFailure mr wid task score "Failed to extract title or content"
              { w with adb := (ArticleRepository.updateStatus w.adb task.articleId
                  .SCRAPING none none none now).2 } now) := by
  constructor
  · have ha1 : ArticleRepository.getById
        (ArticleRepository.updateStatus w.adb task.articleId .SCRAPING none none none now).2
        task.articleId
        = some (ArticleRepository.applyStatusUpdate d .SCRAPING none none none now) :=
      ArticleRepository.getById_updateStatus_self w.adb task.articleId d
        .SCRAPING none none none now ha
    have hany1 := any_key_of_getById _ task.articleId _ ha1
    have htr : ArticleRepository.truthy (some t) = true := by
      simp [ArticleRepository.truthy, ht]
    have hcr : ArticleRepository.truthy (some c) = true := by
      simp [ArticleRepository.truthy, hc]
    have hj1 : JobRepository.getById
        (JobRepository.incrementCompleted w.jdb task.jobId now).2 task.jobId
        = some { jb with completedCount := jb.completedCount + 1, updatedAt := now } :=
      JobRepository.getById_incrementCompleted_self w.jdb task.jobId jb now hj
    unfold processArticle
    dsimp only
    rw [htr, hcr]
    rw [if_pos (show (true && true) = true from rfl)]
    rw [ArticleRepository.updateStatus_eq _ task.articleId .SCRAPED (some t) (some c)
      none now hany1]
    rw [if_pos rfl]
    refine ⟨?_, ?_, rfl, rfl, rfl⟩
    · have hself := ArticleRepository.getById_updateStatus_self
        (ArticleRepository.updateStatus w.adb task.articleId .SCRAPING none none none now).2
        task.articleId _ .SCRAPED (some t) (some c) none now ha1
      rw [ArticleRepository.updateStatus_eq _ task.articleId .SCRAPED (some t) (some c)
        none now hany1] at hself
      rw [hself]
      simp [ArticleRepository.applyStatusUpdate, ArticleRepository.truthy, ht, hc]
    · have hfin := JobRepository.getById_checkAndCompleteJob
        (JobRepository.incrementCompleted w.jdb task.jobId now).2 task.jobId
        { jb with completedCount := jb.completedCount + 1, updatedAt := now } now hj1
      rw [hfin]
  · intro title content hcond
    unfold processArticle
    dsimp only
    rw [hcond]
    rw [if_neg (by simp : ¬ (false = true))]

end NewsAgg

namespace NewsAgg

/-- Witness for C6: a concrete successful fetch stores title and body,
marks SCRAPED and stamps `scraped_at`. -/
theorem C6_success_path_witness :
    ArticleRepository.getById
      (processArticle 3 "w1" ⟨0, 1, "u", "s", "c", "high", 0⟩ "high"
        (.ok (some "T") (some "B"))
        ⟨⟨[(1, { url := "u", source := "s", category := "c", priority := "high" })], 2⟩,
         ⟨[(0, { totalArticles := 1 })], 1⟩, [], [], []⟩ 9).adb 1
      = some { url := "u"
               source := "s"
               category := "c"
               priority := "high"
               title := some "T"
               content := some "B"
               status := .SCRAPED
               scrapedAt := some 9
               updatedAt := 9 } :=
  ((C6_success_path 3 "w1" ⟨0, 1, "u", "s", "c", "high", 0⟩ "high" "T" "B"
      ⟨⟨[(1, { url := "u", source := "s", category := "c", priority := "high" })], 2⟩,
       ⟨[(0, { totalArticles := 1 })], 1⟩, [], [], []⟩ 9
      { url := "u", source := "s", category := "c", priority := "high" }
      { totalArticles := 1 }
      (by decide) (by decide) rfl rfl).1).1

/-- A failing delivery below the retry limit: mark SCRAPING, then back
off and re-enqueue with the incremented retry count. -/
theorem processArticle_exn_retry (mr : Nat) (wid : String) (task : Task)
    (score err : String) (w : World) (now : Nat)
    (h : task.retryCount + 1 < mr) :
    processArticle mr wid task score (.exn err) w now
      = { w with
          adb := (ArticleRepository.updateStatus w.adb task.articleId
            .SCRAPING none none none now).2
          sleeps := w.sleeps ++ [2 ^ (task.retryCount + 1)]
          queue := w.queue ++ [({ task with retryCount := task.retryCount + 1 }, score)] } := by
  unfold processArticle handleFailure
  dsimp only
  rw [if_neg (Nat.not_le.mpr h)]

/-- A failing delivery at the retry limit: mark SCRAPING, then FAILED
with the error, bump the failed counter, push the dead-letter record and
run the completion check; nothing is re-enqueued. -/
theorem processArticle_exn_dead (mr : Nat) (wid : String) (task : Task)
    (score err : String) (w : World) (now : Nat)
    (h : mr ≤ task.retryCount + 1) :
    processArticle mr wid task score (.exn err) w now
      = { w with
          adb := (ArticleRepository.updateStatus
              (ArticleRepository.updateStatus w.adb task.articleId
                .SCRAPING none none none now).2
              task.articleId .FAILED none none (some err) now).2
          jdb := (JobRepository.checkAndCompleteJob
              (JobRepository.incrementFailed w.jdb task.jobId now).2 task.jobId now).2
          dlq := ⟨{ task with retryCount := task.retryCount + 1 }, now, err, wid⟩ :: w.dlq } := by
  unfold processArticle handleFailure
  dsimp only
  rw [if_pos h]

/-- One unfolding step of `failDeliveries`. -/
theorem failDeliveries_succ (mr : Nat) (wid score err : String) (now n : Nat)
    (task : Task) (w : World) :
    failDeliveries mr wid score err now (n + 1) task w
      = failDeliveries mr wid score err now n
          { task with retryCount := task.retryCount + 1 }
          (processArticle mr wid task score (.exn err)
            { w with queue := w.queue.erase (task, score) } now) := rfl

end NewsAgg

namespace NewsAgg

/-- Base case of `failDeliveries`. -/
theorem failDeliveries_zero (mr : Nat) (wid score err : String) (now : Nat)
    (task : Task) (w : World) :
    failDeliveries mr wid score err now 0 task w = w := rfl

/-- C5: a task whose fetch fails on every delivery, starting from retry
count 0, is dead-lettered exactly once after `max_retries` failing
deliveries: exactly one record is pushed onto the dead-letter list,
carrying the task fields with `retry_count = max_retries` plus the final
error, the timestamp and the worker id; the content record ends FAILED
with the last error; the job's failed count is incremented and the
completion check is then run; and the task is no longer in the queue —
it is never re-enqueued after dead-lettering (the two backoff sleeps 2
and 4 precede the terminal delivery). -/
theorem C5_dead_letter_exactly_once (wid score err : String) (task : Task)
    (w : World) (now : Nat) (d : ArticleDoc) (jb : JobDoc)
    (hrc : task.retryCount = 0)
    (hq : w.queue = [(task, score)])
    (ha : ArticleRepository.getById w.adb task.articleId = some d)
    (hj : JobRepository.getById w.jdb task.jobId = some jb)
    (herr : err ≠ "") :
    (failDeliveries Consumer.maxRetries wid score err now Consumer.maxRetries task w).dlq
      = ⟨{ task with retryCount := Consumer.maxRetries }, now, err, wid⟩ :: w.dlq
    ∧ ArticleRepository.getById
        (failDeliveries Consumer.maxRetries wid score err now Consumer.maxRetries task w).adb
        task.articleId
      = some { d with status := .FAILED, errorMessage := some err, updatedAt := now }
    ∧ JobRepository.getById
        (failDeliveries Consumer.maxRetries wid score err now Consumer.maxRetries task w).jdb
        task.jobId
      = some (if jb.totalArticles ≤ jb.completedCount + (jb.failedCount + 1) then
          { jb with
            failedCount := jb.failedCount + 1
            status := .COMPLETED
            updatedAt := now
            completedAt := some now }
        else { jb with failedCount := jb.failedCount + 1, updatedAt := now })
    ∧ (failDeliveries Consumer.maxRetries wid score err now Consumer.maxRetries task w).queue
      = []
    ∧ (failDeliveries Consumer.maxRetries wid score err now Consumer.maxRetries task w).sleeps
      = w.sleeps ++ [2, 4] := by
  have h1 : task.retryCount + 1 < 3 := by omega
  have h2 : ({ task with retryCount := task.retryCount + 1 } : Task).retryCount + 1 < 3 := by
    dsimp only
    omega
  have h3 : 3 ≤ ({ task with retryCount := task.retryCount + 1 + 1 } : Task).retryCount + 1 := by
    dsimp only
    omega
  have master : failDeliveries Consumer.maxRetries wid score err now Consumer.maxRetries task w
      = { adb := (ArticleRepository.updateStatus
            (ArticleRepository.updateStatus
              (ArticleRepository.updateStatus
                (ArticleRepository.updateStatus w.adb task.articleId
                  .SCRAPING none none none now).2
                task.articleId .SCRAPING none none none now).2
              task.articleId .SCRAPING none none none now).2
            task.articleId .FAILED none none (some err) now).2
          jdb := (JobRepository.checkAndCompleteJob
            (JobRepository.incrementFailed w.jdb task.jobId now).2 task.jobId now).2
          queue := []
          dlq := ⟨{ task with retryCount := task.retryCount + 1 + 1 + 1 }, now, err, wid⟩
            :: w.dlq
          sleeps := w.sleeps ++ [2 ^ (task.retryCount + 1)]
            ++ [2 ^ (task.retryCount + 1 + 1)] } := by
    show failDeliveries 3 wid score err now 3 task w = _
    rw [failDeliveries_succ, hq, List.erase_cons_head,
      processArticle_exn_retry 3 wid task score err _ now h1]
    dsimp only
    simp only [List.nil_append]
    rw [failDeliveries_succ, List.erase_cons_head,
      processArticle_exn_retry _ _ _ _ _ _ _ h2]
    dsimp only
    simp only [List.nil_append]
    rw [failDeliveries_succ, List.erase_cons_head,
      processArticle_exn_dead _ _ _ _ _ _ _ h3]
    dsimp only
    rw [failDeliveries_zero]
  refine ⟨?_, ?_, ?_, ?_, ?_⟩
  · rw [master, hrc]
    rfl
  · rw [master]
    have g1 := ArticleRepository.getById_updateStatus_self w.adb task.articleId d
      .SCRAPING none none none now ha
    have g2 := ArticleRepository.getById_updateStatus_self _ task.articleId _
      .SCRAPING none none none now g1
    have g3 := ArticleRepository.getById_updateStatus_self _ task.articleId _
      .SCRAPING none none none now g2
    have g4 := ArticleRepository.getById_updateStatus_self _ task.articleId _
      .FAILED none none (some err) now g3
    rw [g4]
    simp [ArticleRepository.applyStatusUpdate, ArticleRepository.truthy, herr]
  · rw [master]
    have j1 := JobRepository.getById_incrementFailed_self w.jdb task.jobId jb now hj
    have j2 := JobRepository.getById_checkAndCompleteJob _ task.jobId _ now j1
    rw [j2]
  · rw [master]
  · rw [master, hrc]
    simp

end NewsAgg

namespace NewsAgg

/-- Witness for C5: three failing deliveries of a concrete task leave
exactly one dead-letter record with retry count 3 and an empty queue. -/
theorem C5_dead_letter_exactly_once_witness :
    (failDeliveries Consumer.maxRetries "w1" "high" "E" 4 Consumer.maxRetries
        ⟨0, 1, "u", "s", "c", "high", 0⟩
        ⟨⟨[(1, { url := "u", source := "s", category := "c", priority := "high" })], 2⟩,
         ⟨[(0, { totalArticles := 1 })], 1⟩,
         [(⟨0, 1, "u", "s", "c", "high", 0⟩, "high")], [], []⟩).dlq
      = [⟨⟨0, 1, "u", "s", "c", "high", 3⟩, 4, "E", "w1"⟩]
    ∧ (failDeliveries Consumer.maxRetries "w1" "high" "E" 4 Consumer.maxRetries
        ⟨0, 1, "u", "s", "c", "high", 0⟩
        ⟨⟨[(1, { url := "u", source := "s", category := "c", priority := "high" })], 2⟩,
         ⟨[(0, { totalArticles := 1 })], 1⟩,
         [(⟨0, 1, "u", "s", "c", "high", 0⟩, "high")], [], []⟩).queue = [] := by
  have h := C5_dead_letter_exactly_once "w1" "high" "E"
    ⟨0, 1, "u", "s", "c", "high", 0⟩
    ⟨⟨[(1, { url := "u", source := "s", category := "c", priority := "high" })], 2⟩,
     ⟨[(0, { totalArticles := 1 })], 1⟩,
     [(⟨0, 1, "u", "s", "c", "high", 0⟩, "high")], [], []⟩ 4
    { url := "u", source := "s", category := "c", priority := "high" }
    { totalArticles := 1 } rfl rfl rfl rfl (by decide)
  exact ⟨h.1, h.2.2.2.1⟩

/-- One loop iteration of `publish_all` (no concurrent writer) always
succeeds, classifies the item exactly once, and links exactly one id. -/
theorem processItem_id_ok (st : PubState) (item : ArticleCreateData) (now : Nat) :
    ∃ st' : PubState, processItem id st item now = .ok st'
      ∧ st'.newCount + st'.existingCount = st.newCount + st.existingCount + 1
      ∧ st'.linked.length = st.linked.length + 1 := by
  cases h : ArticleRepository.getByUrl st.adb item.url with
  | some p =>
      by_cases hs : p.2.status = .SCRAPED
      · refine ⟨{ st with
            adb := (ArticleRepository.incrementReferenceCount st.adb p.1 now).2
            existingCount := st.existingCount + 1
            linked := st.linked ++ [p.1] }, ?_, ?_, ?_⟩
        · unfold processItem
          rw [h]
          dsimp only [id]
          rw [if_pos hs]
        · dsimp only
          omega
        · dsimp only
          simp
      · refine ⟨{ st with
            adb := (ArticleRepository.updateStatus st.adb p.1 .PENDING none none none now).2
            newCount := st.newCount + 1
            linked := st.linked ++ [p.1]
            toPublish := st.toPublish
              ++ [⟨p.1, item.url, item.source, item.category, item.priority⟩] }, ?_, ?_, ?_⟩
        · unfold processItem
          rw [h]
          dsimp only [id]
          rw [if_neg hs]
        · dsimp only
          omega
        · dsimp only
          simp
  | none =>
      refine ⟨{ st with
          adb := ⟨st.adb.docs ++ [(st.adb.nextId,
            { url := item.url, source := item.source, category := item.category,
              priority := item.priority, createdAt := now, updatedAt := now })],
            st.adb.nextId + 1⟩
          newCount := st.newCount + 1
          linked := st.linked ++ [st.adb.nextId]
          toPublish := st.toPublish
            ++ [⟨st.adb.nextId, item.url, item.source, item.category, item.priority⟩] },
        ?_, ?_, ?_⟩
      · unfold processItem
        rw [h]
        dsimp only [id]
        rw [ArticleRepository.create_ok st.adb item now h]
      · dsimp only
        omega
      · dsimp only
        simp

/-- The classification loop of `publish_all` over a whole batch:
never errors without interference, and counts plus linked ids add up to
the batch length. -/
theorem foldlM_processItem_id (batch : List ArticleCreateData) (now : Nat) :
    ∀ st : PubState, ∃ st' : PubState,
      batch.foldlM (fun s item => processItem id s item now) st = .ok st'
      ∧ st'.newCount + st'.existingCount
          = st.newCount + st.existingCount + batch.length
      ∧ st'.linked.length = st.linked.length + batch.length := by
  induction batch with
  | nil =>
      intro st
      exact ⟨st, rfl, by simp, by simp⟩
  | cons a t ih =>
      intro st
      obtain ⟨st1, h1, h2, h3⟩ := processItem_id_ok st a now
      obtain ⟨st', h1', h2', h3'⟩ := ih st1
      refine ⟨st', ?_, by simp; omega, by simp; omega⟩
      rw [List.foldlM_cons, h1]
      exact h1'

end NewsAgg

namespace NewsAgg

/-- Reduction of a successful bind in the `Except` monad. -/
theorem exceptOkBind {ε α β : Type} (a : α) (f : α → Except ε β) :
    (Except.ok a : Except ε α) >>= f = f a := rfl

/-- C8: for every non-empty batch, the submission succeeds and the job
record it creates satisfies `new_count + cached_count = total_count` with
`total_count` the batch size, its member-id list has exactly
`total_count` entries, and the returned summary reports the same job id,
status, total, new and cached counts. -/
theorem C8_batch_accounting (adb : ArticlesDB) (jdb : JobsDB) (q : Queue)
    (batch : List ArticleCreateData) (now : Nat)
    (hne : batch ≠ [])
    (hwf : ∀ p ∈ jdb.docs, p.1 < jdb.nextId) :
    ∃ adb' jdb' q' resp, publishAll adb jdb q batch now = .ok (adb', jdb', q', resp)
      ∧ resp.totalArticles = batch.length
      ∧ resp.newArticles + resp.cachedArticles = batch.length
      ∧ ∃ job : JobDoc, JobRepository.getById jdb' resp.jobId = some job
          ∧ job.totalArticles = batch.length
          ∧ job.newArticles + job.cachedArticles = batch.length
          ∧ job.articleIds.length = batch.length
          ∧ job.status = resp.status
          ∧ job.newArticles = resp.newArticles
          ∧ job.cachedArticles = resp.cachedArticles := by
  obtain ⟨st, hfold, hsum, hlen⟩ :=
    foldlM_processItem_id batch now ({ adb := adb } : PubState)
  have hv : JobRepository.jobCreateValid batch.length = true := by
    unfold JobRepository.jobCreateValid
    exact decide_eq_true (List.length_pos.mpr hne)
  have hcreate : JobRepository.create jdb batch.length st.newCount st.existingCount
      st.linked now
      = .ok (jdb.nextId, ⟨jdb.docs ++ [(jdb.nextId,
          { totalArticles := batch.length, newArticles := st.newCount,
            cachedArticles := st.existingCount, articleIds := st.linked,
            createdAt := now, updatedAt := now })], jdb.nextId + 1⟩) := by
    unfold JobRepository.create
    rw [hv]
    rfl
  have hjob := JobRepository.getById_jobUpdateStatus_self
    ⟨jdb.docs ++ [(jdb.nextId,
      { totalArticles := batch.length, newArticles := st.newCount,
        cachedArticles := st.existingCount, articleIds := st.linked,
        createdAt := now, updatedAt := now })], jdb.nextId + 1⟩
    jdb.nextId
    { totalArticles := batch.length, newArticles := st.newCount,
      cachedArticles := st.existingCount, articleIds := st.linked,
      createdAt := now, updatedAt := now }
    (if st.newCount = 0 then JobStatus.COMPLETED else JobStatus.IN_PROGRESS) now
    (JobRepository.getById_append_fresh jdb.docs jdb.nextId _ (jdb.nextId + 1) hwf)
  refine ⟨st.adb,
    (JobRepository.updateStatus
      ⟨jdb.docs ++ [(jdb.nextId,
        { totalArticles := batch.length, newArticles := st.newCount,
          cachedArticles := st.existingCount, articleIds := st.linked,
          createdAt := now, updatedAt := now })], jdb.nextId + 1⟩
      jdb.nextId
      (if st.newCount = 0 then JobStatus.COMPLETED else JobStatus.IN_PROGRESS) now).2,
    st.toPublish.foldl (fun qq d => publishArticle qq d jdb.nextId) q,
    ⟨jdb.nextId, (if st.newCount = 0 then JobStatus.COMPLETED else JobStatus.IN_PROGRESS),
      batch.length, st.newCount, st.existingCount, "Job submitted successfully"⟩,
    ?_, rfl, ?_, ?_⟩
  · unfold publishAll publishAllWith
    simp only [hfold, exceptOkBind]
    rw [hcreate]
    rfl
  · exact hsum.trans (by simp)
  · refine ⟨_, hjob, rfl, by dsimp only; exact hsum.trans (by simp), ?_, rfl, rfl, rfl⟩
    · dsimp only
      exact hlen.trans (by simp)

end NewsAgg

namespace NewsAgg

/-- Witness for C8: a one-item batch produces a job with matching counts. -/
theorem C8_batch_accounting_witness :
    ∃ adb' jdb' q' resp,
      publishAll ⟨[], 0⟩ ⟨[], 0⟩ [] [⟨"https://example.com/c", "S", "C", "high"⟩] 1
        = .ok (adb', jdb', q', resp)
      ∧ resp.totalArticles = 1
      ∧ resp.newArticles + resp.cachedArticles = 1
      ∧ ∃ job : JobDoc, JobRepository.getById jdb' resp.jobId = some job
          ∧ job.totalArticles = 1
          ∧ job.newArticles + job.cachedArticles = 1
          ∧ job.articleIds.length = 1
          ∧ job.status = resp.status
          ∧ job.newArticles = resp.newArticles
          ∧ job.cachedArticles = resp.cachedArticles :=
  C8_batch_accounting ⟨[], 0⟩ ⟨[], 0⟩ [] [⟨"https://example.com/c", "S", "C", "high"⟩] 1
    (by simp) (by simp)

/-- In a store whose keys are distinct, two entries with the same key are
the same document. -/
theorem nodup_keys_eq {α : Type} :
    ∀ l : List (Nat × α), (l.map Prod.fst).Nodup →
      ∀ (k : Nat) (x y : α), (k, x) ∈ l → (k, y) ∈ l → x = y := by
  intro l
  induction l with
  | nil =>
      intro _ k x y hx _
      cases hx
  | cons a t ih =>
      intro h k x y hx hy
      rw [List.map_cons, List.nodup_cons] at h
      rcases List.mem_cons.mp hx with hxa | hxt
      · rcases List.mem_cons.mp hy with hya | hyt
        · have h3 := hxa.trans hya.symm
          simpa using h3
        · exfalso
          apply h.1
          rw [← hxa]
          simpa using List.mem_map_of_mem Prod.fst hyt
      · rcases List.mem_cons.mp hy with hya | hyt
        · exfalso
          apply h.1
          rw [← hya]
          simpa using List.mem_map_of_mem Prod.fst hxt
        · exact ih h.2 k x y hxt hyt

/-- A keyed update never changes the key list. -/
theorem map_fst_key_map {α : Type} (l : List (Nat × α)) (f : α → α) (id : Nat) :
    (l.map (fun p => if p.1 = id then (p.1, f p.2) else p)).map Prod.fst
      = l.map Prod.fst := by
  rw [List.map_map]
  have hp : (Prod.fst ∘ fun p : Nat × α => if p.1 = id then (p.1, f p.2) else p)
      = Prod.fst := by
    funext p
    show (if p.1 = id then (p.1, f p.2) else p).1 = p.1
    split <;> rfl
  rw [hp]

/-- Effect of one `increment_reference_count` on the per-url reference
count: the url it was resolved from gains exactly 1, every other url is
untouched. -/
theorem referenceCountAt_incRef (adb : ArticlesDB) (v u : String) (aid : Nat)
    (d : ArticleDoc) (now : Nat)
    (hnodup : (adb.docs.map Prod.fst).Nodup)
    (hfound : ArticleRepository.getByUrl adb v = some (aid, d)) :
    referenceCountAt (ArticleRepository.incrementReferenceCount adb aid now).2 u
      = referenceCountAt adb u + (if v = u then 1 else 0) := by
  have hany : adb.docs.any (fun p => p.1 = aid) = true :=
    any_key_of_getByUrl adb v aid d hfound
  have hmap := ArticleRepository.getByUrl_incRef adb aid now u hany
  unfold referenceCountAt
  rw [hmap]
  by_cases hvu : v = u
  · subst hvu
    rw [hfound]
    simp
  · rw [if_neg hvu]
    cases hu : ArticleRepository.getByUrl adb u with
    | none => simp
    | some p =>
        have hurl1 : d.url = v := by
          simpa using List.find?_some (show adb.docs.find?
            (fun q => q.2.url = v) = some (aid, d) from hfound)
        have hurl2 : p.2.url = u := by
          simpa using List.find?_some (show adb.docs.find?
            (fun q => q.2.url = u) = some p from hu)
        have hne : ¬ p.1 = aid := by
          intro heq
          have hmem1 := List.mem_of_find?_eq_some (show adb.docs.find?
            (fun q => q.2.url = v) = some (aid, d) from hfound)
          have hmem2 := List.mem_of_find?_eq_some (show adb.docs.find?
            (fun q => q.2.url = u) = some p from hu)
          have hmem2' : (aid, p.2) ∈ adb.docs := by
            rw [← heq]
            simpa using hmem2
          have hdd : d = p.2 := nodup_keys_eq adb.docs hnodup aid d p.2 hmem1 hmem2'
          rw [hdd] at hurl1
          exact hvu (hurl1.symm.trans hurl2)
        simp only [Option.map_some']
        rw [if_neg hne]
        simp

end NewsAgg

namespace NewsAgg

/-- Keys of a store are untouched by any key-preserving map. -/
theorem nodup_keys_keyed {α : Type} (l : List (Nat × α)) (g : Nat × α → Nat × α)
    (hg : ∀ p, (g p).1 = p.1) (h : (l.map Prod.fst).Nodup) :
    ((l.map g).map Prod.fst).Nodup := by
  rw [List.map_map]
  have hp : (Prod.fst ∘ g) = Prod.fst := funext fun p => hg p
  rw [hp]
  exact h

/-- The classification loop over a batch whose every url is already
SCRAPED in the cache: every item is classified cached, nothing is
prepared for publishing, and each url's reference count grows by its
number of occurrences in the batch. -/
theorem foldlM_processItem_cached (batch : List ArticleCreateData) (now : Nat) :
    ∀ st : PubState,
      (st.adb.docs.map Prod.fst).Nodup →
      (∀ item ∈ batch, ∃ aid d,
        ArticleRepository.getByUrl st.adb item.url = some (aid, d)
        ∧ d.status = .SCRAPED) →
      ∃ st' : PubState,
        batch.foldlM (fun s item => processItem id s item now) st = .ok st'
        ∧ st'.newCount = st.newCount
        ∧ st'.existingCount = st.existingCount + batch.length
        ∧ st'.toPublish = st.toPublish
        ∧ st'.linked.length = st.linked.length + batch.length
        ∧ ∀ u, referenceCountAt st'.adb u
            = referenceCountAt st.adb u + batch.countP (fun i => i.url = u) := by
  induction batch with
  | nil =>
      intro st _ _
      exact ⟨st, rfl, rfl, by simp, rfl, by simp, by simp⟩
  | cons a t ih =>
      intro st hnodup hall
      obtain ⟨aid, d, hfound, hscraped⟩ := hall a (List.mem_cons_self a t)
      have hany : st.adb.docs.any (fun p => p.1 = aid) = true :=
        any_key_of_getByUrl st.adb a.url aid d hfound
      have hstep : processItem id st a now
          = .ok { st with
              adb := (ArticleRepository.incrementReferenceCount st.adb aid now).2
              existingCount := st.existingCount + 1
              linked := st.linked ++ [aid] } := by
        unfold processItem
        rw [hfound]
        dsimp only [id]
        rw [if_pos hscraped]
      have hnodup1 :
          (((ArticleRepository.incrementReferenceCount st.adb aid now).2).docs.map
            Prod.fst).Nodup := by
        rw [ArticleRepository.incRef_eq st.adb aid now hany]
        dsimp only
        exact nodup_keys_keyed _ _ (fun p => by split <;> rfl) hnodup
      have hmapu := fun u => ArticleRepository.getByUrl_incRef st.adb aid now u hany
      have hall1 : ∀ item ∈ t, ∃ aid' d',
          ArticleRepository.getByUrl
            (ArticleRepository.incrementReferenceCount st.adb aid now).2 item.url
            = some (aid', d') ∧ d'.status = .SCRAPED := by
        intro item hit
        obtain ⟨aid', d', hf', hs'⟩ := hall item (List.mem_cons_of_mem a hit)
        by_cases haid : aid' = aid
        · refine ⟨aid',
            { d' with referenceCount := d'.referenceCount + 1, updatedAt := now },
            ?_, hs'⟩
          rw [hmapu item.url, hf']
          simp [haid]
        · refine ⟨aid', d', ?_, hs'⟩
          rw [hmapu item.url, hf']
          simp [haid]
      obtain ⟨st', hfold', hnew', hex', hpub', hlen', href'⟩ :=
        ih ({ st with
              adb := (ArticleRepository.incrementReferenceCount st.adb aid now).2
              existingCount := st.existingCount + 1
              linked := st.linked ++ [aid] } : PubState) hnodup1 hall1
      refine ⟨st', ?_, ?_, ?_, ?_, ?_, ?_⟩
      · rw [List.foldlM_cons, hstep]
        exact hfold'
      · exact hnew'
      · dsimp only at hex'
        rw [hex']
        simp only [List.length_cons]
        omega
      · exact hpub'
      · dsimp only at hlen'
        simp only [List.length_append, List.length_cons, List.length_nil] at hlen' ⊢
        omega
      · intro u
        rw [href' u]
        have hstep' := referenceCountAt_incRef st.adb a.url u aid d now hnodup hfound
        dsimp only
        rw [hstep']
        rw [List.countP_cons]
        by_cases hau : a.url = u
        · rw [if_pos hau, if_pos (by simpa using hau)]
          omega
        · rw [if_neg hau, if_neg (by simpa using hau)]
          omega

end NewsAgg

namespace NewsAgg

/-- Any successful submission reports status COMPLETED exactly when its
new-articles count is 0, and IN_PROGRESS otherwise (the final
`update_status` in `publish_all`). -/
theorem publishAllWith_status_ok (interfere : ArticlesDB → ArticlesDB)
    (adb : ArticlesDB) (jdb : JobsDB) (q : Queue)
    (batch : List ArticleCreateData) (now : Nat)
    (r : ArticlesDB × JobsDB × Queue × JobSubmitResponse)
    (h : publishAllWith interfere adb jdb q batch now = .ok r) :
    r.2.2.2.status
      = if r.2.2.2.newArticles = 0 then JobStatus.COMPLETED
        else JobStatus.IN_PROGRESS := by
  unfold publishAllWith at h
  cases hf : batch.foldlM (fun st item => processItem interfere st item now)
      ({ adb := adb } : PubState) with
  | error e =>
      rw [hf] at h
      exact Except.noConfusion (show (Except.error e
        : Except String (ArticlesDB × JobsDB × Queue × JobSubmitResponse)) = .ok r from h)
  | ok st =>
      rw [hf] at h
      have h2 : (JobRepository.create jdb batch.length st.newCount st.existingCount
            st.linked now >>= fun created =>
            (Except.ok (st.adb,
              (JobRepository.updateStatus created.2 created.1
                (if st.newCount = 0 then JobStatus.COMPLETED else JobStatus.IN_PROGRESS)
                now).2,
              st.toPublish.foldl (fun qq d => publishArticle qq d created.1) q,
              ({ jobId := created.1
                 status := if st.newCount = 0 then JobStatus.COMPLETED
                   else JobStatus.IN_PROGRESS
                 totalArticles := batch.length
                 newArticles := st.newCount
                 cachedArticles := st.existingCount
                 message := "Job submitted successfully" } : JobSubmitResponse))
              : Except String (ArticlesDB × JobsDB × Queue × JobSubmitResponse)))
          = .ok r := h
      cases hc : JobRepository.create jdb batch.length st.newCount st.existingCount
          st.linked now with
      | error e =>
          rw [hc] at h2
          exact Except.noConfusion (show (Except.error e
            : Except String (ArticlesDB × JobsDB × Queue × JobSubmitResponse))
            = .ok r from h2)
      | ok created =>
          rw [hc] at h2
          have h4 := Except.ok.inj h2
          rw [← h4]

/-- C9: a batch whose every url is already SCRAPED in the cache is a pure
cache hit: every item is classified cached with its reference count
incremented by exactly one occurrence, no task is enqueued (the queue is
returned unchanged), and the response reports 0 new articles, a cached
count equal to the batch size, and status COMPLETED immediately; in any
successful submission where at least one item was classified new or
retry, the returned status is IN_PROGRESS instead. -/
theorem C9_pure_cache_hit (adb : ArticlesDB) (jdb : JobsDB) (q : Queue)
    (batch : List ArticleCreateData) (now : Nat)
    (hne : batch ≠ [])
    (hnodup : (adb.docs.map Prod.fst).Nodup)
    (hall : ∀ item ∈ batch, ∃ aid d,
      ArticleRepository.getByUrl adb item.url = some (aid, d)
      ∧ d.status = .SCRAPED) :
    (∃ adb' jdb' resp,
      publishAll adb jdb q batch now = .ok (adb', jdb', q, resp)
      ∧ resp.newArticles = 0
      ∧ resp.cachedArticles = batch.length
      ∧ resp.status = .COMPLETED
      ∧ ∀ u, referenceCountAt adb' u
          = referenceCountAt adb u + batch.countP (fun i => i.url = u))
    ∧ (∀ (adb2 : ArticlesDB) (jdb2 : JobsDB) (q2 : Queue)
        (batch2 : List ArticleCreateData) (now2 : Nat)
        (r : ArticlesDB × JobsDB × Queue × JobSubmitResponse),
        publishAll adb2 jdb2 q2 batch2 now2 = .ok r →
        r.2.2.2.newArticles ≠ 0 →
        r.2.2.2.status = .IN_PROGRESS) := by
  constructor
  · obtain ⟨st, hfold, hnew, hex, hpub, hlen, href⟩ :=
      foldlM_processItem_cached batch now ({ adb := adb } : PubState) hnodup hall
    have hv : JobRepository.jobCreateValid batch.length = true :=
      decide_eq_true (List.length_pos.mpr hne)
    have hnew0 : st.newCount = 0 := hnew
    have hex0 : st.existingCount = 0 + batch.length := hex
    have hpub0 : st.toPublish = [] := hpub
    have href0 : ∀ u, referenceCountAt st.adb u
        = referenceCountAt adb u + batch.countP (fun i => i.url = u) := href
    have hcreate : JobRepository.create jdb batch.length st.newCount st.existingCount
        st.linked now
        = .ok (jdb.nextId, ⟨jdb.docs ++ [(jdb.nextId,
            { totalArticles := batch.length, newArticles := st.newCount,
              cachedArticles := st.existingCount, articleIds := st.linked,
              createdAt := now, updatedAt := now })], jdb.nextId + 1⟩) := by
      unfold JobRepository.create
      rw [hv]
      rfl
    refine ⟨st.adb,
      (JobRepository.updateStatus
        ⟨jdb.docs ++ [(jdb.nextId,
          { totalArticles := batch.length, newArticles := st.newCount,
            cachedArticles := st.existingCount, articleIds := st.linked,
            createdAt := now, updatedAt := now })], jdb.nextId + 1⟩
        jdb.nextId
        (if st.newCount = 0 then JobStatus.COMPLETED else JobStatus.IN_PROGRESS) now).2,
      ⟨jdb.nextId,
        (if st.newCount = 0 then JobStatus.COMPLETED else JobStatus.IN_PROGRESS),
        batch.length, st.newCount, st.existingCount, "Job submitted successfully"⟩,
      ?_, hnew0, ?_, ?_, href0⟩
    · unfold publishAll publishAllWith
      simp only [hfold, exceptOkBind]
      rw [hcreate]
      simp only [exceptOkBind]
      rw [hpub0]
      rfl
    · show st.existingCount = batch.length
      omega
    · show (if st.newCount = 0 then JobStatus.COMPLETED else JobStatus.IN_PROGRESS)
        = JobStatus.COMPLETED
      rw [if_pos hnew0]
  · intro adb2 jdb2 q2 batch2 now2 r h hnz
    have hs := publishAllWith_status_ok id adb2 jdb2 q2 batch2 now2 r h
    rw [hs, if_neg hnz]

end NewsAgg

namespace NewsAgg

/-- Witness for C9: resubmitting one already-SCRAPED url is a pure cache
hit — 0 new, 1 cached, COMPLETED immediately, queue untouched, and that
url's reference count grows by exactly 1. -/
theorem C9_pure_cache_hit_witness :
    ∃ adb' jdb' resp,
      publishAll
        ⟨[(3, { url := "https://example.com/d", source := "s", category := "c",
                priority := "high", status := .SCRAPED })], 4⟩
        ⟨[], 0⟩ [] [⟨"https://example.com/d", "T", "A", "high"⟩] 0
        = .ok (adb', jdb', [], resp)
      ∧ resp.newArticles = 0
      ∧ resp.cachedArticles = 1
      ∧ resp.status = .COMPLETED
      ∧ ∀ u, referenceCountAt adb' u
          = referenceCountAt
              ⟨[(3, { url := "https://example.com/d", source := "s", category := "c",
                      priority := "high", status := .SCRAPED })], 4⟩ u
            + ([⟨"https://example.com/d", "T", "A", "high"⟩]
                : List ArticleCreateData).countP (fun i => i.url = u) :=
  (C9_pure_cache_hit
    ⟨[(3, { url := "https://example.com/d", source := "s", category := "c",
            priority := "high", status := .SCRAPED })], 4⟩
    ⟨[], 0⟩ [] [⟨"https://example.com/d", "T", "A", "high"⟩] 0
    (by simp) (by simp)
    (by
      intro item hit
      simp only [List.mem_singleton] at hit
      subst hit
      exact ⟨3, { url := "https://example.com/d", source := "s", category := "c",
                  priority := "high", status := .SCRAPED }, rfl, rfl⟩)).1

end NewsAgg
